import Mathlib

/-!
Verification of the docker image save/load script `manage_images.py`.

The script is a thin orchestration of external executables.  We embed it
shallowly: the external world (executable lookup, the output of the image
lister, the result of each shell pipeline, the glob expansion) is a record
of oracles `Env`, and each Python function becomes a pure Lean function
from `Env` and its arguments to an `Outcome` recording the log records it
emitted, the external effects it performed (directory creation, pipeline
execution) in order, and whether it called `sys.exit`.
-/

namespace ManageImages

/-- ASCII whitespace characters removed by the strip method of Python strings. -/
def pyIsSpace (c : Char) : Bool :=
  c = ' ' || c = '\t' || c = '\n' || c = '\r' || c = '\x0b' || c = '\x0c'

/-- Characters of a string after removing leading and trailing whitespace. -/
def pyStripList (l : List Char) : List Char :=
  ((l.dropWhile pyIsSpace).reverse.dropWhile pyIsSpace).reverse

/-- Python `str.strip()` (no argument form). -/
def pyStrip (s : String) : String :=
  String.mk (pyStripList s.data)

/-- Python `str.endswith(suffix)`. -/
def pyEndswith (s suffix : String) : Bool :=
  suffix.data.isSuffixOf s.data

/-- Replacement of a single character, pointwise. -/
def replChar (a b c : Char) : Char := if c = a then b else c

/-- Python `str.replace(a, b)` for one-character `a` and `b`: with a
one-character pattern, replacing each non-overlapping occurrence is the
pointwise map over the characters. -/
def replaceChar (a b : Char) (s : String) : String :=
  String.mk (s.data.map (replChar a b))

/-- Python `os.path.join(dir, file)` for the POSIX forms this program uses. -/
def pathJoin (dir file : String) : String :=
  if file.startsWith "/" then file
  else if dir = "" then file
  else if dir.endsWith "/" then dir ++ file
  else dir ++ "/" ++ file

/-- Splitting a character list at every occurrence of `sep`, keeping empty
segments, as Python `str.split(sep)` does for a one-character separator. -/
def splitOnCharAux (sep : Char) : List Char → List (List Char)
  | [] => [[]]
  | c :: rest =>
      match splitOnCharAux sep rest with
      | [] => [[]]
      | cur :: done =>
          if c = sep then [] :: cur :: done else (c :: cur) :: done

/-- Python `str.split(chr(10))`, the newline split applied to the lister output. -/
def pySplitLines (s : String) : List String :=
  (splitOnCharAux '\n' s.data).map String.mk

/-- Python `s.split()[0]` for the command strings used here, none of which
starts with whitespace: the leading run of non-whitespace characters. -/
def first_word (s : String) : String :=
  String.mk (s.data.takeWhile (fun c => !(pyIsSpace c)))

/-- Severity of a log record. -/
inductive LogLevel where
  | debug
  | info
  | warning
  | error
deriving DecidableEq

/-- One record emitted through the logging module. -/
structure LogEvent where
  level : LogLevel
  msg : String
deriving DecidableEq

/-- An externally visible side effect of the program. -/
inductive Effect where
  | madeDir (path : String)
  | ranPipeline (cmd : String)
deriving DecidableEq

/-- The observable result of running (part of) the program: the log records
in order, the side effects in order, and `some c` when `sys.exit(c)` was
called (`none` when the code returned normally, so the process exits 0). -/
structure Outcome where
  logs : List LogEvent
  effects : List Effect
  exitCode : Option Nat
deriving DecidableEq

/-- The external world: `which` is `shutil.which` viewed as a presence
predicate, `dockerImagesResult` the result of the image-listing subprocess
(`Except.error` carries the captured stderr text of a failing call),
`runPipeline` the result of running a shell pipeline command string, and
`glob` the files matched by a glob pattern, in enumeration order. -/
structure Env where
  which : String → Bool
  dockerImagesResult : Except String String
  runPipeline : String → Except String Unit
  glob : String → List String

/-- Process exit status determined by an outcome. -/
def exitStatus (o : Outcome) : Nat :=
  o.exitCode.getD 0

/-- The pipeline command strings an outcome ran, in order. -/
def effectCmd (e : Effect) : Option String :=
  match e with
  | .ranPipeline c => some c
  | .madeDir _ => none

/-- The pipeline command strings an outcome ran, in order. -/
def pipelineCmds (o : Outcome) : List String :=
  o.effects.filterMap effectCmd

/-- Sequencing of two program fragments: if the first called `sys.exit`,
the second never runs. -/
def seqOutcome (a b : Outcome) : Outcome :=
  match a.exitCode with
  | some _ => a
  | none => { logs := a.logs ++ b.logs, effects := a.effects ++ b.effects,
              exitCode := b.exitCode }

/-- The tools from `tools` that `shutil.which` does not find. -/
def missingTools (which : String → Bool) (tools : List String) : List String :=
  tools.filter (fun t => !(which t))

/-- `check_dependencies` of the source: collects every missing tool, and on
any missing tool logs them all joined with a comma and exits with status 1. -/
def check_dependencies (which : String → Bool) (tools : List String) : Outcome :=
  if missingTools which tools = [] then
    { logs := [⟨.debug, "所有依赖项均已找到: " ++ String.intercalate ", " tools⟩],
      effects := [], exitCode := none }
  else
    { logs := [⟨.error, "找不到以下必需的命令: " ++
                  String.intercalate ", " (missingTools which tools)⟩,
               ⟨.error, "请确保它们已安装并在你的 PATH 中。"⟩],
      effects := [], exitCode := some 1 }

/-- `find_compressor` of the source: the chosen
(compressor, decompressor) pair together with the log records it emits. -/
def find_compressor (which : String → Bool) : (String × String) × List LogEvent :=
  if which "pigz" then
    (("pigz", "pigz -dc"),
     [⟨.info, "发现 pigz (并行 gzip)，将用它进行压缩/解压。"⟩])
  else
    (("gzip", "gunzip -c"),
     [⟨.warning, "未发现 pigz。将回退到 gzip (速度较慢)。"⟩])

/-- The sanitized archive base name: `image_name.replace("/", "-").replace(":", "_")`. -/
def safe_name (imageName : String) : String :=
  replaceChar ':' '_' (replaceChar '/' '-' imageName)

/-- The archive path of an image: `os.path.join(output_dir, safe_name + ".tag.gz")`. -/
def output_filename (outputDir imageName : String) : String :=
  pathJoin outputDir (safe_name imageName ++ ".tag.gz")

/-- The save pipeline command string of the source, verbatim. -/
def saveCmd (compressor imageName outFile : String) : String :=
  "docker save " ++ imageName ++ " | " ++ compressor ++ " > " ++ outFile

/-- The load pipeline command string of the source, verbatim. -/
def loadCmd (decompressor imageFile : String) : String :=
  decompressor ++ " " ++ imageFile ++ " | docker load"

/-- The filter of `save_images`: keep every listed reference that ends with
`":" + tag`, in the order listed. -/
def images_to_save (tag : String) (allImages : List String) : List String :=
  allImages.filter (fun img => pyEndswith img (":" ++ tag))

/-- One iteration of the save loop: log the progress record, run the
pipeline, and on a `CalledProcessError` log the failure (plus the captured
stderr when it is non-empty) and continue. -/
def saveItem (run : String → Except String Unit) (compressor outputDir imageName : String) :
    List LogEvent × List Effect :=
  match run (saveCmd compressor imageName (output_filename outputDir imageName)) with
  | .ok _ =>
      ([⟨.info, "  📦 正在保存: " ++ imageName ++ " -> " ++
          output_filename outputDir imageName⟩],
       [.ranPipeline (saveCmd compressor imageName (output_filename outputDir imageName))])
  | .error stderr =>
      ([⟨.info, "  📦 正在保存: " ++ imageName ++ " -> " ++
          output_filename outputDir imageName⟩,
        ⟨.error, "  保存失败: " ++ imageName ++ "。"⟩] ++
         (if stderr = "" then [] else [⟨.error, "  命令错误: " ++ pyStrip stderr⟩]),
       [.ranPipeline (saveCmd compressor imageName (output_filename outputDir imageName))])

/-- The save loop over the matching images, accumulating logs and effects. -/
def saveLoop (run : String → Except String Unit) (compressor outputDir : String) :
    List String → List LogEvent × List Effect
  | [] => ([], [])
  | img :: rest =>
      let head := saveItem run compressor outputDir img
      let tail := saveLoop run compressor outputDir rest
      (head.1 ++ tail.1, head.2 ++ tail.2)

/-- `save_images` of the source. -/
def save_images (env : Env) (tag outputDir compressor : String) : Outcome :=
  let header : LogEvent := ⟨.info, "--- 正在查找 Tag 为 " ++ tag ++ " 的镜像 ---"⟩
  match env.dockerImagesResult with
  | .error stderr =>
      { logs := [header, ⟨.error, "docker images 命令执行失败。"⟩] ++
          (if stderr = "" then [] else [⟨.error, "Docker 错误: " ++ pyStrip stderr⟩]),
        effects := [], exitCode := some 1 }
  | .ok stdout =>
      let toSave := images_to_save tag (pySplitLines (pyStrip stdout))
      if toSave = [] then
        { logs := [header, ⟨.warning, "未找到 Tag 为 " ++ tag ++ " 的镜像。"⟩],
          effects := [], exitCode := none }
      else
        let body := saveLoop env.runPipeline compressor outputDir toSave
        { logs := [header,
            ⟨.info, "找到了 " ++ toString toSave.length ++ " 个镜像，准备保存..."⟩] ++
            body.1 ++ [⟨.info, "--- ✅ 保存完成 ---"⟩],
          effects := .madeDir outputDir :: body.2,
          exitCode := none }

/-- One iteration of the load loop. -/
def loadItem (run : String → Except String Unit) (decompressor imageFile : String) :
    List LogEvent × List Effect :=
  match run (loadCmd decompressor imageFile) with
  | .ok _ =>
      ([⟨.info, "  🚚 正在加载: " ++ imageFile⟩],
       [.ranPipeline (loadCmd decompressor imageFile)])
  | .error stderr =>
      ([⟨.info, "  🚚 正在加载: " ++ imageFile⟩,
        ⟨.error, "  加载失败: " ++ imageFile ++ "。"⟩] ++
         (if stderr = "" then [] else [⟨.error, "  命令错误: " ++ pyStrip stderr⟩]),
       [.ranPipeline (loadCmd decompressor imageFile)])

/-- The load loop over the globbed archive files. -/
def loadLoop (run : String → Except String Unit) (decompressor : String) :
    List String → List LogEvent × List Effect
  | [] => ([], [])
  | f :: rest =>
      let head := loadItem run decompressor f
      let tail := loadLoop run decompressor rest
      (head.1 ++ tail.1, head.2 ++ tail.2)

/-- `load_images` of the source. -/
def load_images (env : Env) (inputDir decompressor : String) : Outcome :=
  let files := env.glob (pathJoin inputDir "*.tag.gz")
  if files = [] then
    { logs := [⟨.warning, "在 " ++ inputDir ++ " 目录中未找到 *.tag.gz 文件。"⟩],
      effects := [], exitCode := none }
  else
    let body := loadLoop env.runPipeline decompressor files
    { logs := [⟨.info, "找到了 " ++ toString files.length ++ " 个镜像压缩包，准备加载..."⟩] ++
        body.1 ++ [⟨.info, "--- ✅ 加载完成 ---"⟩],
      effects := body.2,
      exitCode := none }

/-- A parsed command line. -/
inductive Command where
  | save (tag : String) (outDir : String)
  | load (inDir : String)
deriving DecidableEq

/-- The namespace object produced by a successful parse. -/
structure Args where
  command : Command
  logFile : Option String
  verbose : Bool
deriving DecidableEq

/-- Modelled argparse subparser for `save`: `--tag` is required, `--out-dir`
defaults to `"."`.  On any parse failure argparse prints a usage message and
terminates the process with status 2 (`ArgumentParser.error`). -/
def parseSaveArgs : List String → Option String → String → Option String → Bool → Except Nat Args
  | [], tagOpt, outDir, logFile, verbose =>
      match tagOpt with
      | some t => .ok ⟨Command.save t outDir, logFile, verbose⟩
      | none => .error 2
  | a :: rest, tagOpt, outDir, logFile, verbose =>
      if a = "--tag" then
        match rest with
        | v :: rest2 => parseSaveArgs rest2 (some v) outDir logFile verbose
        | [] => .error 2
      else if a = "--out-dir" then
        match rest with
        | v :: rest2 => parseSaveArgs rest2 tagOpt v logFile verbose
        | [] => .error 2
      else .error 2

/-- Modelled argparse subparser for `load`: `--in-dir` defaults to `"."`. -/
def parseLoadArgs : List String → String → Option String → Bool → Except Nat Args
  | [], inDir, logFile, verbose => .ok ⟨Command.load inDir, logFile, verbose⟩
  | a :: rest, inDir, logFile, verbose =>
      if a = "--in-dir" then
        match rest with
        | v :: rest2 => parseLoadArgs rest2 v logFile verbose
        | [] => .error 2
      else .error 2

/-- Modelled argparse top-level parser: the global options `--log-file` and
`-v` or `--verbose`, and the mandatory subcommand selector; a missing or
unknown subcommand is a parse failure (usage message, process status 2). -/
def parseArgsLoop : List String → Option String → Bool → Except Nat Args
  | [], _, _ => .error 2
  | a :: rest, logFile, verbose =>
      if a = "-v" then parseArgsLoop rest logFile true
      else if a = "--verbose" then parseArgsLoop rest logFile true
      else if a = "--log-file" then
        match rest with
        | v :: rest2 => parseArgsLoop rest2 (some v) verbose
        | [] => .error 2
      else if a = "save" then parseSaveArgs rest none "." logFile verbose
      else if a = "load" then parseLoadArgs rest "." logFile verbose
      else .error 2

/-- `parser.parse_args(argv)` of the source. -/
def parse_args (argv : List String) : Except Nat Args :=
  parseArgsLoop argv none false

/-- `main` of the source: parse, configure logging, probe for docker, pick
the compressor pair once, probe for its executable, then dispatch. -/
def main (env : Env) (argv : List String) : Outcome :=
  match parse_args argv with
  | .error c => { logs := [], effects := [], exitCode := some c }
  | .ok args =>
      let setupLogs : List LogEvent :=
        (match args.logFile with
         | some f => [⟨.info, "日志将同时保存到: " ++ f⟩]
         | none => []) ++ [⟨.debug, "已启用 DEBUG 模式。"⟩]
      let dep := check_dependencies env.which ["docker"]
      let comp := find_compressor env.which
      let rest :=
        match args.command with
        | .save tag outDir =>
            seqOutcome (check_dependencies env.which [first_word comp.1.1])
              (save_images env tag outDir comp.1.1)
        | .load inDir =>
            seqOutcome (check_dependencies env.which [first_word comp.1.2])
              (load_images env inDir comp.1.2)
      seqOutcome
        { logs := setupLogs ++ dep.logs, effects := dep.effects, exitCode := dep.exitCode }
        { logs := comp.2 ++ rest.logs, effects := rest.effects, exitCode := rest.exitCode }

/-- The archive filename formula exactly as §8 of the spec states it:
`f(repo, tag) = replace(repo, "/", "-") + "_" + tag + ".tag.gz"`. -/
def spec_filename (repo tag : String) : String :=
  replaceChar '/' '-' repo ++ "_" ++ tag ++ ".tag.gz"

/-- Concrete environment used to instantiate hypotheses of the theorems. -/
def envW : Env where
  which := fun _ => true
  dockerImagesResult := .ok "app:1.0.2v\napp:1.0.3v\ndb:1.0.2v"
  runPipeline := fun _ => .ok ()
  glob := fun _ => ["./a.tag.gz"]

theorem string_eq_of_data {s t : String} (h : s.data = t.data) : s = t := by
  cases s; cases t; exact congrArg String.mk h

theorem saveItem_effects (run : String → Except String Unit) (c d i : String) :
    (saveItem run c d i).2 = [.ranPipeline (saveCmd c i (output_filename d i))] := by
  unfold saveItem
  cases run (saveCmd c i (output_filename d i)) <;> rfl

theorem saveLoop_effects (run : String → Except String Unit) (c d : String) (l : List String) :
    (saveLoop run c d l).2 =
      l.map (fun i => Effect.ranPipeline (saveCmd c i (output_filename d i))) := by
  induction l with
  | nil => rfl
  | cons a t ih => simp [saveLoop, saveItem_effects, ih]

theorem loadItem_effects (run : String → Except String Unit) (d f : String) :
    (loadItem run d f).2 = [.ranPipeline (loadCmd d f)] := by
  unfold loadItem
  cases run (loadCmd d f) <;> rfl

theorem loadLoop_effects (run : String → Except String Unit) (d : String) (l : List String) :
    (loadLoop run d l).2 = l.map (fun f => Effect.ranPipeline (loadCmd d f)) := by
  induction l with
  | nil => rfl
  | cons a t ih => simp [loadLoop, loadItem_effects, ih]

theorem filterMap_effectCmd_ranPipeline (cmds : List String) :
    (cmds.map Effect.ranPipeline).filterMap effectCmd = cmds := by
  induction cmds with
  | nil => rfl
  | cons a t ih => simp [effectCmd, ih]

theorem filterMap_some_comp {α β : Type} (f : α → β) (l : List α) :
    l.filterMap (fun a => some (f a)) = l.map f := by
  induction l with
  | nil => rfl
  | cons a t ih => simp [ih]

theorem pipelineCmds_save_images (env : Env) (tag outputDir compressor stdout : String)
    (h : env.dockerImagesResult = .ok stdout) :
    pipelineCmds (save_images env tag outputDir compressor) =
      (images_to_save tag (pySplitLines (pyStrip stdout))).map
        (fun r => saveCmd compressor r (output_filename outputDir r)) := by
  unfold save_images
  rw [h]
  by_cases he : images_to_save tag (pySplitLines (pyStrip stdout)) = []
  · simp [he, pipelineCmds]
  · simp [he, pipelineCmds, saveLoop_effects, effectCmd, Function.comp_def,
      filterMap_some_comp]

theorem pipelineCmds_load_images (env : Env) (inputDir decompressor : String) :
    pipelineCmds (load_images env inputDir decompressor) =
      (env.glob (pathJoin inputDir "*.tag.gz")).map (fun f => loadCmd decompressor f) := by
  unfold load_images
  by_cases hg : env.glob (pathJoin inputDir "*.tag.gz") = []
  · simp [hg, pipelineCmds]
  · simp [hg, pipelineCmds, loadLoop_effects, effectCmd, Function.comp_def,
      filterMap_some_comp]

theorem save_images_exitCode (env : Env) (tag outputDir compressor stdout : String)
    (h : env.dockerImagesResult = .ok stdout) :
    (save_images env tag outputDir compressor).exitCode = none := by
  unfold save_images
  rw [h]
  by_cases he : images_to_save tag (pySplitLines (pyStrip stdout)) = [] <;> simp [he]

theorem load_images_exitCode (env : Env) (inputDir decompressor : String) :
    (load_images env inputDir decompressor).exitCode = none := by
  unfold load_images
  by_cases hg : env.glob (pathJoin inputDir "*.tag.gz") = [] <;> simp [hg]

/-- C1: save processes exactly the listed references that end in the suffix
built from the requested tag: membership both ways, order preserved (the
selection is a sublist of the listed order, no re-sorting), and the
pipelines run are exactly one per matching reference in that order. -/
theorem save_processes_exactly_suffix_matches (env : Env)
    (stdout tag outputDir compressor : String)
    (h : env.dockerImagesResult = .ok stdout) :
    (∀ r, r ∈ images_to_save tag (pySplitLines (pyStrip stdout)) ↔
        r ∈ pySplitLines (pyStrip stdout) ∧ pyEndswith r (":" ++ tag) = true) ∧
    List.Sublist (images_to_save tag (pySplitLines (pyStrip stdout)))
      (pySplitLines (pyStrip stdout)) ∧
    pipelineCmds (save_images env tag outputDir compressor) =
      (images_to_save tag (pySplitLines (pyStrip stdout))).map
        (fun r => saveCmd compressor r (output_filename outputDir r)) := by
  refine ⟨fun r => ?_, List.filter_sublist _,
    pipelineCmds_save_images env tag outputDir compressor stdout h⟩
  simp [images_to_save, List.mem_filter]

theorem save_processes_exactly_suffix_matches_witness :
    (∀ r, r ∈ images_to_save "1.0.2v"
        (pySplitLines (pyStrip "app:1.0.2v\napp:1.0.3v\ndb:1.0.2v")) ↔
        r ∈ pySplitLines (pyStrip "app:1.0.2v\napp:1.0.3v\ndb:1.0.2v") ∧
          pyEndswith r (":" ++ "1.0.2v") = true) ∧
    List.Sublist
      (images_to_save "1.0.2v" (pySplitLines (pyStrip "app:1.0.2v\napp:1.0.3v\ndb:1.0.2v")))
      (pySplitLines (pyStrip "app:1.0.2v\napp:1.0.3v\ndb:1.0.2v")) ∧
    pipelineCmds (save_images envW "1.0.2v" "." "pigz") =
      (images_to_save "1.0.2v" (pySplitLines (pyStrip "app:1.0.2v\napp:1.0.3v\ndb:1.0.2v"))).map
        (fun r => saveCmd "pigz" r (output_filename "." r)) :=
  save_processes_exactly_suffix_matches envW "app:1.0.2v\napp:1.0.3v\ndb:1.0.2v"
    "1.0.2v" "." "pigz" rfl

theorem map_replChar_of_not_mem {a : Char} (b : Char) {l : List Char} (h : a ∉ l) :
    l.map (replChar a b) = l := by
  induction l with
  | nil => rfl
  | cons c t ih =>
      simp only [List.mem_cons, not_or] at h
      have hc : c ≠ a := fun e => h.1 e.symm
      simp [replChar, hc, ih h.2]

theorem not_mem_map_replChar {a b x : Char} {l : List Char} (hx : x ∉ l) (hb : b ≠ x) :
    x ∉ l.map (replChar a b) := by
  intro hmem
  rcases List.mem_map.mp hmem with ⟨c, hc, he⟩
  by_cases hca : c = a
  · subst hca
    simp only [replChar, if_pos rfl] at he
    exact hb he
  · simp only [replChar, if_neg hca] at he
    exact hx (he ▸ hc)

/-- C2 counterexample: for the image reference built from the repository
localhost:5000/app and the tag 1.0 the code also replaces the colon inside
the repository with an underscore, so the derived filename differs from the
formula stated by the spec. -/
theorem filename_formula_counterexample :
    safe_name ("localhost:5000/app" ++ ":" ++ "1.0") ++ ".tag.gz" ≠
      spec_filename "localhost:5000/app" "1.0" := by decide

/-- C2 (amended): for every image reference of the form repo:tag in which
the repository contains no colon and the tag contains no slash and no colon,
the archive filename derived by save equals the formula of the spec,
replace(repo, "/", "-") + "_" + tag + ".tag.gz". -/
theorem safe_name_matches_spec_formula (repo tag : String)
    (h1 : ':' ∉ repo.data) (h2 : '/' ∉ tag.data) (h3 : ':' ∉ tag.data) :
    safe_name (repo ++ ":" ++ tag) ++ ".tag.gz" = spec_filename repo tag := by
  have hf1tag : tag.data.map (replChar '/' '-') = tag.data := map_replChar_of_not_mem _ h2
  have hf2tag : tag.data.map (replChar ':' '_') = tag.data := map_replChar_of_not_mem _ h3
  have hrepo : ':' ∉ repo.data.map (replChar '/' '-') :=
    not_mem_map_replChar h1 (by decide)
  have hf2repo : (repo.data.map (replChar '/' '-')).map (replChar ':' '_') =
      repo.data.map (replChar '/' '-') := map_replChar_of_not_mem _ hrepo
  have e1 : replChar '/' '-' ':' = ':' := rfl
  have e2 : replChar ':' '_' ':' = '_' := rfl
  have hcolon : (":" : String).data = [':'] := rfl
  have hus : ("_" : String).data = ['_'] := rfl
  apply string_eq_of_data
  simp [safe_name, replaceChar, spec_filename, String.data_append, hcolon, hus,
    List.map_append, e1, e2, hf1tag, hf2tag, hf2repo]

theorem safe_name_matches_spec_formula_witness :
    (':' ∉ ("myrepo/app" : String).data) ∧
    safe_name ("myrepo/app" ++ ":" ++ "1.0.2v") ++ ".tag.gz" =
      spec_filename "myrepo/app" "1.0.2v" :=
  ⟨by decide,
   safe_name_matches_spec_formula "myrepo/app" "1.0.2v" (by decide) (by decide) (by decide)⟩

theorem parse_args_save_cmdline (tag outDir : String) :
    parse_args ["save", "--tag", tag, "--out-dir", outDir] =
      Except.ok ⟨Command.save tag outDir, none, false⟩ := rfl

theorem parse_args_load_cmdline (inDir : String) :
    parse_args ["load", "--in-dir", inDir] =
      Except.ok ⟨Command.load inDir, none, false⟩ := rfl

theorem main_save_components (env : Env) (tag outDir : String)
    (hd : missingTools env.which ["docker"] = [])
    (hc : missingTools env.which [first_word (find_compressor env.which).1.1] = []) :
    (main env ["save", "--tag", tag, "--out-dir", outDir]).exitCode =
      (save_images env tag outDir (find_compressor env.which).1.1).exitCode ∧
    (main env ["save", "--tag", tag, "--out-dir", outDir]).effects =
      (save_images env tag outDir (find_compressor env.which).1.1).effects := by
  unfold main
  rw [parse_args_save_cmdline]
  simp [seqOutcome, check_dependencies, hd, hc]

theorem main_load_components (env : Env) (inDir : String)
    (hd : missingTools env.which ["docker"] = [])
    (hc : missingTools env.which [first_word (find_compressor env.which).1.2] = []) :
    (main env ["load", "--in-dir", inDir]).exitCode =
      (load_images env inDir (find_compressor env.which).1.2).exitCode ∧
    (main env ["load", "--in-dir", inDir]).effects =
      (load_images env inDir (find_compressor env.which).1.2).effects := by
  unfold main
  rw [parse_args_load_cmdline]
  simp [seqOutcome, check_dependencies, hd, hc]

theorem main_save_docker_missing (env : Env) (tag outDir : String)
    (hd : env.which "docker" = false) :
    (main env ["save", "--tag", tag, "--out-dir", outDir]).exitCode = some 1 ∧
    (main env ["save", "--tag", tag, "--out-dir", outDir]).effects = [] := by
  have hm : missingTools env.which ["docker"] = ["docker"] := by
    simp [missingTools, hd]
  unfold main
  rw [parse_args_save_cmdline]
  simp [seqOutcome, check_dependencies, hm]

/-- C3: a per-item pipeline failure never stops the batch: the pipelines
attempted by save and by load do not depend on the result of the individual
pipeline runs, and a run whose only failures are per-item ones terminates
with process exit code 0 for both subcommands. -/
theorem per_item_failures_do_not_abort (env : Env)
    (stdout tag outDir inDir : String)
    (h : env.dockerImagesResult = .ok stdout)
    (hd : env.which "docker" = true) (hp : env.which "pigz" = true) :
    (∀ run1 run2 : String → Except String Unit,
        pipelineCmds (save_images { env with runPipeline := run1 } tag outDir "pigz") =
        pipelineCmds (save_images { env with runPipeline := run2 } tag outDir "pigz")) ∧
    (∀ run1 run2 : String → Except String Unit,
        pipelineCmds (load_images { env with runPipeline := run1 } inDir "pigz -dc") =
        pipelineCmds (load_images { env with runPipeline := run2 } inDir "pigz -dc")) ∧
    exitStatus (main env ["save", "--tag", tag, "--out-dir", outDir]) = 0 ∧
    exitStatus (main env ["load", "--in-dir", inDir]) = 0 := by
  have hmd : missingTools env.which ["docker"] = [] := by simp [missingTools, hd]
  have hfc : find_compressor env.which =
      (("pigz", "pigz -dc"), [⟨.info, "发现 pigz (并行 gzip)，将用它进行压缩/解压。"⟩]) := by
    simp [find_compressor, hp]
  have hmp : missingTools env.which ["pigz"] = [] := by simp [missingTools, hp]
  have hcs : missingTools env.which [first_word (find_compressor env.which).1.1] = [] := by
    rw [hfc]; exact hmp
  have hcl : missingTools env.which [first_word (find_compressor env.which).1.2] = [] := by
    rw [hfc]; exact hmp
  refine ⟨?_, ?_, ?_, ?_⟩
  · intro run1 run2
    rw [pipelineCmds_save_images { env with runPipeline := run1 } tag outDir "pigz" stdout h,
        pipelineCmds_save_images { env with runPipeline := run2 } tag outDir "pigz" stdout h]
  · intro run1 run2
    rw [pipelineCmds_load_images { env with runPipeline := run1 } inDir "pigz -dc",
        pipelineCmds_load_images { env with runPipeline := run2 } inDir "pigz -dc"]
  · rw [exitStatus, (main_save_components env tag outDir hmd hcs).1,
        save_images_exitCode env tag outDir _ stdout h]
    rfl
  · rw [exitStatus, (main_load_components env inDir hmd hcl).1,
        load_images_exitCode env inDir _]
    rfl

theorem per_item_failures_do_not_abort_witness :
    (∀ run1 run2 : String → Except String Unit,
        pipelineCmds (save_images { envW with runPipeline := run1 } "1.0.2v" "." "pigz") =
        pipelineCmds (save_images { envW with runPipeline := run2 } "1.0.2v" "." "pigz")) ∧
    (∀ run1 run2 : String → Except String Unit,
        pipelineCmds (load_images { envW with runPipeline := run1 } "." "pigz -dc") =
        pipelineCmds (load_images { envW with runPipeline := run2 } "." "pigz -dc")) ∧
    exitStatus (main envW ["save", "--tag", "1.0.2v", "--out-dir", "."]) = 0 ∧
    exitStatus (main envW ["load", "--in-dir", "."]) = 0 :=
  per_item_failures_do_not_abort envW "app:1.0.2v\napp:1.0.3v\ndb:1.0.2v"
    "1.0.2v" "." "." rfl rfl rfl

theorem save_images_listing_failure (env : Env) (tag outDir compressor stderr : String)
    (h : env.dockerImagesResult = .error stderr) :
    (save_images env tag outDir compressor).exitCode = some 1 ∧
    (save_images env tag outDir compressor).effects = [] := by
  unfold save_images
  rw [h]
  exact ⟨rfl, rfl⟩

/-- C5: when executables are missing, check_dependencies reports every
missing name together in a single log record and exits with status 1 (at
main level a missing docker exits 1 with no effects at all); when the image
listing fails, save_images logs the failure, logs the captured stderr when
it is non-empty, runs no pipeline, and exits with status 1. -/
theorem fatal_preconditions_exit_one (which : String → Bool) (tools : List String)
    (env : Env) (tag outDir compressor stderr : String)
    (hmiss : missingTools which tools ≠ [])
    (hfail : env.dockerImagesResult = .error stderr)
    (hd : env.which "docker" = false) :
    ((check_dependencies which tools).exitCode = some 1 ∧
     (check_dependencies which tools).effects = [] ∧
     (⟨.error, "找不到以下必需的命令: " ++
        String.intercalate ", " (missingTools which tools)⟩ : LogEvent) ∈
        (check_dependencies which tools).logs) ∧
    ((main env ["save", "--tag", tag, "--out-dir", outDir]).exitCode = some 1 ∧
     (main env ["save", "--tag", tag, "--out-dir", outDir]).effects = []) ∧
    ((save_images env tag outDir compressor).exitCode = some 1 ∧
     pipelineCmds (save_images env tag outDir compressor) = [] ∧
     (stderr ≠ "" → (⟨.error, "Docker 错误: " ++ pyStrip stderr⟩ : LogEvent) ∈
        (save_images env tag outDir compressor).logs)) := by
  refine ⟨⟨?_, ?_, ?_⟩, main_save_docker_missing env tag outDir hd, ?_, ?_, ?_⟩
  · unfold check_dependencies; rw [if_neg hmiss]
  · unfold check_dependencies; rw [if_neg hmiss]
  · unfold check_dependencies; rw [if_neg hmiss]; simp
  · exact (save_images_listing_failure env tag outDir compressor stderr hfail).1
  · rw [pipelineCmds, (save_images_listing_failure env tag outDir compressor stderr hfail).2]
    rfl
  · intro hne
    simp [save_images, hfail, hne]

def envFail : Env where
  which := fun _ => false
  dockerImagesResult := .error "boom"
  runPipeline := fun _ => .ok ()
  glob := fun _ => []

theorem fatal_preconditions_exit_one_witness :
    ((check_dependencies envFail.which ["docker"]).exitCode = some 1 ∧
     (check_dependencies envFail.which ["docker"]).effects = [] ∧
     (⟨.error, "找不到以下必需的命令: " ++
        String.intercalate ", " (missingTools envFail.which ["docker"])⟩ : LogEvent) ∈
        (check_dependencies envFail.which ["docker"]).logs) ∧
    ((main envFail ["save", "--tag", "1.0.2v", "--out-dir", "."]).exitCode = some 1 ∧
     (main envFail ["save", "--tag", "1.0.2v", "--out-dir", "."]).effects = []) ∧
    ((save_images envFail "1.0.2v" "." "pigz").exitCode = some 1 ∧
     pipelineCmds (save_images envFail "1.0.2v" "." "pigz") = [] ∧
     ("boom" ≠ "" → (⟨.error, "Docker 错误: " ++ pyStrip "boom"⟩ : LogEvent) ∈
        (save_images envFail "1.0.2v" "." "pigz").logs)) :=
  fatal_preconditions_exit_one envFail.which ["docker"] envFail "1.0.2v" "." "pigz" "boom"
    (by decide) rfl rfl

theorem parseSaveArgs_no_tag :
    ∀ (rest : List String) (outDir : String) (logFile : Option String) (verbose : Bool),
      "--tag" ∉ rest → parseSaveArgs rest none outDir logFile verbose = Except.error 2
  | [], _, _, _, _ => rfl
  | a :: rest, outDir, logFile, verbose, h => by
      have ha : a ≠ "--tag" := by
        intro e
        exact h (by simp [e])
      unfold parseSaveArgs
      rw [if_neg ha]
      by_cases hb : a = "--out-dir"
      · rw [if_pos hb]
        cases rest with
        | nil => rfl
        | cons v rest2 =>
            exact parseSaveArgs_no_tag rest2 v logFile verbose
              (fun hm => h (List.mem_cons_of_mem _ (List.mem_cons_of_mem _ hm)))
      · rw [if_neg hb]

theorem parseArgsLoop_unknown (a : String) (rest : List String)
    (logFile : Option String) (verbose : Bool)
    (h1 : a ≠ "-v") (h2 : a ≠ "--verbose") (h3 : a ≠ "--log-file")
    (h4 : a ≠ "save") (h5 : a ≠ "load") :
    parseArgsLoop (a :: rest) logFile verbose = Except.error 2 := by
  unfold parseArgsLoop
  rw [if_neg h1, if_neg h2, if_neg h3, if_neg h4, if_neg h5]

/-- C4 counterexample: invoking the save subcommand without the required
--tag argument terminates the process with the argparse usage-error status
2, not with exit code 1 as the claim states. -/
theorem parse_failure_exit_code_counterexample :
    (main envW ["save"]).exitCode = some 2 ∧
    (main envW ["save"]).exitCode ≠ some 1 :=
  ⟨rfl, by decide⟩

/-- C4 (amended): when the save subcommand is invoked without the required
--tag argument, or when the mandatory subcommand selector is missing or
unknown, the process terminates with the argparse usage-error exit code 2
and a usage message, before any dependency check or pipeline work: no log
record is emitted and no effect is performed. -/
theorem parse_failures_exit_two (env : Env) (rest : List String) (cmd : String)
    (hnt : "--tag" ∉ rest)
    (hc1 : cmd ≠ "save") (hc2 : cmd ≠ "load") (hc3 : cmd ≠ "-v")
    (hc4 : cmd ≠ "--verbose") (hc5 : cmd ≠ "--log-file") :
    main env ("save" :: rest) = ⟨[], [], some 2⟩ ∧
    main env [] = ⟨[], [], some 2⟩ ∧
    main env (cmd :: rest) = ⟨[], [], some 2⟩ := by
  refine ⟨?_, rfl, ?_⟩
  · have hs : parse_args ("save" :: rest) = Except.error 2 := by
      unfold parse_args parseArgsLoop
      rw [if_neg (by decide : ¬("save" : String) = "-v"),
          if_neg (by decide : ¬("save" : String) = "--verbose"),
          if_neg (by decide : ¬("save" : String) = "--log-file"),
          if_pos rfl]
      exact parseSaveArgs_no_tag rest "." none false hnt
    unfold main
    rw [hs]
  · have hu : parse_args (cmd :: rest) = Except.error 2 := by
      unfold parse_args
      exact parseArgsLoop_unknown cmd rest none false hc3 hc4 hc5 hc1 hc2
    unfold main
    rw [hu]

theorem parse_failures_exit_two_witness :
    ("--tag" ∉ ([] : List String)) ∧
    (main envW ("save" :: []) = ⟨[], [], some 2⟩ ∧
     main envW [] = ⟨[], [], some 2⟩ ∧
     main envW ("frobnicate" :: []) = ⟨[], [], some 2⟩) :=
  ⟨by decide,
   parse_failures_exit_two envW [] "frobnicate" (by decide) (by decide) (by decide)
     (by decide) (by decide) (by decide)⟩

/-- C6: empty results are not errors: a save run whose listing matches no
image and a load run whose glob matches no file log a warning, perform no
effect at all (no directory creation, no archive written, no load run), and
the process exits 0. -/
theorem empty_results_warn_and_continue (env : Env)
    (stdout tag outDir inDir : String)
    (h : env.dockerImagesResult = .ok stdout)
    (hempty : images_to_save tag (pySplitLines (pyStrip stdout)) = [])
    (hglob : env.glob (pathJoin inDir "*.tag.gz") = [])
    (hd : env.which "docker" = true) (hp : env.which "pigz" = true) :
    (save_images env tag outDir "pigz").exitCode = none ∧
    (save_images env tag outDir "pigz").effects = [] ∧
    (⟨.warning, "未找到 Tag 为 " ++ tag ++ " 的镜像。"⟩ : LogEvent) ∈
      (save_images env tag outDir "pigz").logs ∧
    (load_images env inDir "pigz -dc").exitCode = none ∧
    (load_images env inDir "pigz -dc").effects = [] ∧
    (⟨.warning, "在 " ++ inDir ++ " 目录中未找到 *.tag.gz 文件。"⟩ : LogEvent) ∈
      (load_images env inDir "pigz -dc").logs ∧
    exitStatus (main env ["save", "--tag", tag, "--out-dir", outDir]) = 0 ∧
    exitStatus (main env ["load", "--in-dir", inDir]) = 0 := by
  have hmd : missingTools env.which ["docker"] = [] := by simp [missingTools, hd]
  have hfc : find_compressor env.which =
      (("pigz", "pigz -dc"), [⟨.info, "发现 pigz (并行 gzip)，将用它进行压缩/解压。"⟩]) := by
    simp [find_compressor, hp]
  have hmp : missingTools env.which ["pigz"] = [] := by simp [missingTools, hp]
  have hcs : missingTools env.which [first_word (find_compressor env.which).1.1] = [] := by
    rw [hfc]; exact hmp
  have hcl : missingTools env.which [first_word (find_compressor env.which).1.2] = [] := by
    rw [hfc]; exact hmp
  refine ⟨save_images_exitCode env tag outDir "pigz" stdout h, ?_, ?_,
    load_images_exitCode env inDir "pigz -dc", ?_, ?_, ?_, ?_⟩
  · simp [save_images, h, hempty]
  · simp [save_images, h, hempty]
  · simp [load_images, hglob]
  · simp [load_images, hglob]
  · rw [exitStatus, (main_save_components env tag outDir hmd hcs).1,
        save_images_exitCode env tag outDir _ stdout h]
    rfl
  · rw [exitStatus, (main_load_components env inDir hmd hcl).1,
        load_images_exitCode env inDir _]
    rfl

def envEmpty : Env where
  which := fun _ => true
  dockerImagesResult := .ok "app:2.0\ndb:3.0"
  runPipeline := fun _ => .ok ()
  glob := fun _ => []

theorem empty_results_warn_and_continue_witness :
    (save_images envEmpty "1.0.2v" "." "pigz").exitCode = none ∧
    (save_images envEmpty "1.0.2v" "." "pigz").effects = [] ∧
    (⟨.warning, "未找到 Tag 为 " ++ "1.0.2v" ++ " 的镜像。"⟩ : LogEvent) ∈
      (save_images envEmpty "1.0.2v" "." "pigz").logs ∧
    (load_images envEmpty "." "pigz -dc").exitCode = none ∧
    (load_images envEmpty "." "pigz -dc").effects = [] ∧
    (⟨.warning, "在 " ++ "." ++ " 目录中未找到 *.tag.gz 文件。"⟩ : LogEvent) ∈
      (load_images envEmpty "." "pigz -dc").logs ∧
    exitStatus (main envEmpty ["save", "--tag", "1.0.2v", "--out-dir", "."]) = 0 ∧
    exitStatus (main envEmpty ["load", "--in-dir", "."]) = 0 :=
  empty_results_warn_and_continue envEmpty "app:2.0\ndb:3.0" "1.0.2v" "." "."
    rfl (by decide) rfl rfl rfl

/-- C8: the pipeline command save executes for a matching reference r is
exactly the string docker save r | compressor > path, and the command load
executes for an archive file f is exactly decompressor f | docker load;
these commands, run through the shell with its redirection, are the only
writes the program makes to the archives. -/
theorem pipeline_command_strings (env : Env)
    (stdout tag outDir compressor inDir decompressor : String)
    (h : env.dockerImagesResult = .ok stdout) :
    pipelineCmds (save_images env tag outDir compressor) =
      (images_to_save tag (pySplitLines (pyStrip stdout))).map
        (fun r => "docker save " ++ r ++ " | " ++ compressor ++ " > " ++
          output_filename outDir r) ∧
    pipelineCmds (load_images env inDir decompressor) =
      (env.glob (pathJoin inDir "*.tag.gz")).map
        (fun f => decompressor ++ " " ++ f ++ " | docker load") :=
  ⟨pipelineCmds_save_images env tag outDir compressor stdout h,
   pipelineCmds_load_images env inDir decompressor⟩

theorem pipeline_command_strings_witness :
    pipelineCmds (save_images envW "1.0.2v" "out" "pigz") =
      (images_to_save "1.0.2v" (pySplitLines (pyStrip "app:1.0.2v\napp:1.0.3v\ndb:1.0.2v"))).map
        (fun r => "docker save " ++ r ++ " | " ++ "pigz" ++ " > " ++
          output_filename "out" r) ∧
    pipelineCmds (load_images envW "." "pigz -dc") =
      (envW.glob (pathJoin "." "*.tag.gz")).map
        (fun f => "pigz -dc" ++ " " ++ f ++ " | docker load") :=
  pipeline_command_strings envW "app:1.0.2v\napp:1.0.3v\ndb:1.0.2v" "1.0.2v" "out"
    "pigz" "." "pigz -dc" rfl

theorem main_save_effects_cases (env : Env) (tag outDir : String) :
    (main env ["save", "--tag", tag, "--out-dir", outDir]).effects = [] ∨
    (main env ["save", "--tag", tag, "--out-dir", outDir]).effects =
      (save_images env tag outDir (find_compressor env.which).1.1).effects := by
  by_cases hd : missingTools env.which ["docker"] = []
  · by_cases hc : missingTools env.which [first_word (find_compressor env.which).1.1] = []
    · exact Or.inr (main_save_components env tag outDir hd hc).2
    · left
      unfold main
      rw [parse_args_save_cmdline]
      simp [seqOutcome, check_dependencies, hd, hc]
  · left
    unfold main
    rw [parse_args_save_cmdline]
    simp [seqOutcome, check_dependencies, hd]

theorem main_load_effects_cases (env : Env) (inDir : String) :
    (main env ["load", "--in-dir", inDir]).effects = [] ∨
    (main env ["load", "--in-dir", inDir]).effects =
      (load_images env inDir (find_compressor env.which).1.2).effects := by
  by_cases hd : missingTools env.which ["docker"] = []
  · by_cases hc : missingTools env.which [first_word (find_compressor env.which).1.2] = []
    · exact Or.inr (main_load_components env inDir hd hc).2
    · left
      unfold main
      rw [parse_args_load_cmdline]
      simp [seqOutcome, check_dependencies, hd, hc]
  · left
    unfold main
    rw [parse_args_load_cmdline]
    simp [seqOutcome, check_dependencies, hd]

/-- C7: the compressor pair is selected once per process invocation: with
pigz unavailable the fallback pair (gzip, gunzip -c) is chosen with a
warning, and every pipeline command of that run — on the save side and on
the load side — is built from that one constant pair. -/
theorem compressor_selected_once_fallback (env : Env) (tag outDir inDir : String)
    (hnp : env.which "pigz" = false) :
    (find_compressor env.which).1 = ("gzip", "gunzip -c") ∧
    (⟨.warning, "未发现 pigz。将回退到 gzip (速度较慢)。"⟩ : LogEvent) ∈
      (find_compressor env.which).2 ∧
    (∀ cmd ∈ pipelineCmds (main env ["save", "--tag", tag, "--out-dir", outDir]),
        ∃ r, cmd = saveCmd "gzip" r (output_filename outDir r)) ∧
    (∀ cmd ∈ pipelineCmds (main env ["load", "--in-dir", inDir]),
        ∃ f, cmd = loadCmd "gunzip -c" f) := by
  have hfc : find_compressor env.which =
      (("gzip", "gunzip -c"), [⟨.warning, "未发现 pigz。将回退到 gzip (速度较慢)。"⟩]) := by
    simp [find_compressor, hnp]
  refine ⟨by rw [hfc], by rw [hfc]; exact List.mem_singleton_self _, ?_, ?_⟩
  · intro cmd hcmd
    rcases main_save_effects_cases env tag outDir with hcase | hcase
    · simp [pipelineCmds, hcase] at hcmd
    · have hmain : pipelineCmds (main env ["save", "--tag", tag, "--out-dir", outDir]) =
          pipelineCmds (save_images env tag outDir "gzip") := by
        unfold pipelineCmds
        rw [hcase, hfc]
      rw [hmain] at hcmd
      cases hdi : env.dockerImagesResult with
      | error stderr =>
          have hz : pipelineCmds (save_images env tag outDir "gzip") = [] := by
            unfold pipelineCmds
            rw [(save_images_listing_failure env tag outDir "gzip" stderr hdi).2]
            rfl
          rw [hz] at hcmd
          simp at hcmd
      | ok stdout =>
          rw [pipelineCmds_save_images env tag outDir "gzip" stdout hdi] at hcmd
          rcases List.mem_map.mp hcmd with ⟨r, hr1, hr⟩
          exact ⟨r, hr.symm⟩
  · intro cmd hcmd
    rcases main_load_effects_cases env inDir with hcase | hcase
    · simp [pipelineCmds, hcase] at hcmd
    · have hmain : pipelineCmds (main env ["load", "--in-dir", inDir]) =
          pipelineCmds (load_images env inDir "gunzip -c") := by
        unfold pipelineCmds
        rw [hcase, hfc]
      rw [hmain] at hcmd
      rw [pipelineCmds_load_images env inDir "gunzip -c"] at hcmd
      rcases List.mem_map.mp hcmd with ⟨f, hf1, hf⟩
      exact ⟨f, hf.symm⟩

def envNoPigz : Env where
  which := fun t => !(t == "pigz")
  dockerImagesResult := .ok "app:1.0.2v\ndb:9.9"
  runPipeline := fun _ => .ok ()
  glob := fun _ => ["./db_9.9.tag.gz"]

theorem compressor_selected_once_fallback_witness :
    (find_compressor envNoPigz.which).1 = ("gzip", "gunzip -c") ∧
    (⟨.warning, "未发现 pigz。将回退到 gzip (速度较慢)。"⟩ : LogEvent) ∈
      (find_compressor envNoPigz.which).2 ∧
    (∀ cmd ∈ pipelineCmds (main envNoPigz ["save", "--tag", "1.0.2v", "--out-dir", "."]),
        ∃ r, cmd = saveCmd "gzip" r (output_filename "." r)) ∧
    (∀ cmd ∈ pipelineCmds (main envNoPigz ["load", "--in-dir", "."]),
        ∃ f, cmd = loadCmd "gunzip -c" f) :=
  compressor_selected_once_fallback envNoPigz "1.0.2v" "." "." rfl

theorem pyStrip_all_space (s : String) (h : ∀ c ∈ s.data, pyIsSpace c = true) :
    pyStrip s = "" := by
  apply string_eq_of_data
  show pyStripList s.data = ("" : String).data
  unfold pyStripList
  have h1 : s.data.dropWhile pyIsSpace = [] := by
    rw [List.dropWhile_eq_nil_iff]
    exact fun x hx => h x hx
  rw [h1]
  rfl

theorem pyEndswith_nil (suffix : String) (h : suffix.data ≠ []) :
    pyEndswith "" suffix = false := by
  unfold pyEndswith
  cases hd : suffix.data with
  | nil => exact absurd hd h
  | cons a l =>
      have hnil : ("" : String).data = [] := rfl
      rw [hnil, List.isSuffixOf_cons_nil]

theorem images_to_save_empty_string (tag : String) :
    images_to_save tag [""] = [] := by
  have hcolon : (":" : String).data = [':'] := rfl
  have hne : (":" ++ tag).data ≠ [] := by
    rw [String.data_append, hcolon]
    simp
  have hf : pyEndswith "" (":" ++ tag) = false := pyEndswith_nil _ hne
  simp [images_to_save, hf]

/-- C9: when the lister succeeds with empty or whitespace-only output, save
strips and splits it into the single empty string, which matches no tag
suffix, so save takes the empty-result path: a warning is logged, the call
returns normally, and no directory is created and no pipeline is run. -/
theorem whitespace_stdout_takes_empty_path (env : Env)
    (stdout tag outDir compressor : String)
    (h : env.dockerImagesResult = .ok stdout)
    (hws : ∀ c ∈ stdout.data, pyIsSpace c = true) :
    pySplitLines (pyStrip stdout) = [""] ∧
    images_to_save tag (pySplitLines (pyStrip stdout)) = [] ∧
    (save_images env tag outDir compressor).exitCode = none ∧
    (save_images env tag outDir compressor).effects = [] ∧
    (⟨.warning, "未找到 Tag 为 " ++ tag ++ " 的镜像。"⟩ : LogEvent) ∈
      (save_images env tag outDir compressor).logs := by
  have hs : pyStrip stdout = "" := pyStrip_all_space stdout hws
  have hsplit : pySplitLines (pyStrip stdout) = [""] := by rw [hs]; rfl
  have hempty : images_to_save tag (pySplitLines (pyStrip stdout)) = [] := by
    rw [hsplit]
    exact images_to_save_empty_string tag
  refine ⟨hsplit, hempty,
    save_images_exitCode env tag outDir compressor stdout h, ?_, ?_⟩
  · simp [save_images, h, hempty]
  · simp [save_images, h, hempty]

def envWS : Env where
  which := fun _ => true
  dockerImagesResult := .ok " \n\t "
  runPipeline := fun _ => .ok ()
  glob := fun _ => []

theorem whitespace_stdout_takes_empty_path_witness :
    pySplitLines (pyStrip " \n\t ") = [""] ∧
    images_to_save "1.0.2v" (pySplitLines (pyStrip " \n\t ")) = [] ∧
    (save_images envWS "1.0.2v" "." "pigz").exitCode = none ∧
    (save_images envWS "1.0.2v" "." "pigz").effects = [] ∧
    (⟨.warning, "未找到 Tag 为 " ++ "1.0.2v" ++ " 的镜像。"⟩ : LogEvent) ∈
      (save_images envWS "1.0.2v" "." "pigz").logs :=
  whitespace_stdout_takes_empty_path envWS " \n\t " "1.0.2v" "." "pigz" rfl (by decide)

/-- C10: save creates the output directory only after finding at least one
matching image: with no match the effect list is empty (the filesystem is
left untouched), and with a match the recursive, existence-tolerant
directory creation is the first effect, followed only by the per-image
pipeline runs. -/
theorem mkdir_only_after_match (env : Env) (stdout tag outDir compressor : String)
    (h : env.dockerImagesResult = .ok stdout) :
    (images_to_save tag (pySplitLines (pyStrip stdout)) = [] →
        (save_images env tag outDir compressor).effects = []) ∧
    (images_to_save tag (pySplitLines (pyStrip stdout)) ≠ [] →
        (save_images env tag outDir compressor).effects =
          Effect.madeDir outDir ::
            (images_to_save tag (pySplitLines (pyStrip stdout))).map
              (fun r => Effect.ranPipeline (saveCmd compressor r (output_filename outDir r)))) := by
  constructor
  · intro he
    simp [save_images, h, he]
  · intro he
    simp [save_images, h, he, saveLoop_effects]

theorem mkdir_only_after_match_witness :
    (images_to_save "1.0.2v" (pySplitLines (pyStrip "app:1.0.2v\napp:1.0.3v\ndb:1.0.2v")) = [] →
        (save_images envW "1.0.2v" "." "pigz").effects = []) ∧
    (images_to_save "1.0.2v" (pySplitLines (pyStrip "app:1.0.2v\napp:1.0.3v\ndb:1.0.2v")) ≠ [] →
        (save_images envW "1.0.2v" "." "pigz").effects =
          Effect.madeDir "." ::
            (images_to_save "1.0.2v" (pySplitLines (pyStrip "app:1.0.2v\napp:1.0.3v\ndb:1.0.2v"))).map
              (fun r => Effect.ranPipeline (saveCmd "pigz" r (output_filename "." r)))) :=
  mkdir_only_after_match envW "app:1.0.2v\napp:1.0.3v\ndb:1.0.2v" "1.0.2v" "." "pigz" rfl

end ManageImages
